import Mathlib

/-! Shallow embedding of `app.py` (MFAnalyzer).

The file models the `FundAnalyzer` class — `_preprocess_data`,
`get_historical_data`, `calculate_absolute_returns`,
`calculate_rolling_returns`, `calculate_xirr`, `calculate_sharpe_ratio`,
`get_investment_recommendation` — together with the pieces of the
`/analyze` route that combine them (the fixed period list and the
`.mean()` applied to the rolling-return series).

Conventions of the embedding:

* pandas `Timestamp`s are modelled at day resolution as a wrapper around
  `ℤ`.  Operations pandas supports (comparison, `Timestamp - Timestamp`
  giving a `Timedelta` whose `.days` we use directly,
  `Timestamp - Timedelta(days=n)`) are modelled as integer arithmetic on
  the `days` field.  Operations that raise `TypeError` in Python —
  multiplying a float by a `Timestamp`, adding an int to a `Timestamp`,
  comparing `None` with a number — are modelled as `Except` failures.

* Python floats are modelled as `ℚ`.  The Python value `None` and the
  IEEE special values NaN, +inf and -inf, which the code produces and passes
  around (pandas `pct_change`, empty-`Series.mean()`, division by a zero
  standard deviation), are tracked explicitly by `PyVal`.

* The float power `(1+rate)**x` appearing in the XIRR net-present-value
  function is kept as an explicit function parameter `fpow`: the theorems
  about `calculate_xirr` hold for every choice of `fpow`, because the
  code raises before the value of any power is used.

* `numpy.sqrt(252)` in the Sharpe ratio is irrational, so
  `calculate_sharpe_ratio` returns the classification of the result
  (`unavailable` for Python `None`, NaN, `±inf`, or the pair
  (mean, variance) of the excess-return series for a finite value
  `sqrt 252 * mean / sqrt variance`).  Multiplying by the positive
  constant `sqrt 252` and taking the square root of the variance cannot
  change which of these classes the result falls in.
-/

attribute [local semireducible] Rat.add Rat.mul Rat.inv Rat.sub

/-- A pandas `Timestamp`, at day resolution. -/
structure Timestamp where
  days : ℤ
deriving DecidableEq

/-- A Python level value as it flows through the metrics dictionary:
`None`, float NaN, float `±inf`, or an ordinary (finite) float modelled
as a rational. -/
inductive PyVal where
  | none
  | nan
  | inf
  | ninf
  | num (q : ℚ)
deriving DecidableEq

/-- Python exceptions raised by the modelled code. -/
inductive PyErr where
  | typeError
  | indexError
deriving DecidableEq

/-- Python `abs` on a float. -/
def ratAbs (q : ℚ) : ℚ :=
  if q < 0 then -q else q

instance {ε α : Type} [DecidableEq ε] [DecidableEq α] : DecidableEq (Except ε α) :=
  fun a b =>
    match a, b with
    | Except.error e₁, Except.error e₂ =>
      if h : e₁ = e₂ then Decidable.isTrue (by rw [h]) else
        Decidable.isFalse (by intro hc; cases hc; exact h rfl)
    | Except.error _, Except.ok _ => Decidable.isFalse (by intro hc; cases hc)
    | Except.ok _, Except.error _ => Decidable.isFalse (by intro hc; cases hc)
    | Except.ok x, Except.ok y =>
      if h : x = y then Decidable.isTrue (by rw [h]) else
        Decidable.isFalse (by intro hc; cases hc; exact h rfl)

/-- numpy float division `a / b`: division by (exact) zero yields
`±inf` or NaN depending on the sign of the numerator. -/
def pyDivVal (a b : ℚ) : PyVal :=
  if b = 0 then (if 0 < a then PyVal.inf else if a < 0 then PyVal.ninf else PyVal.nan)
  else PyVal.num (a / b)

/-- Subtracting a float scalar from one entry of a pandas Series
(`period_data['daily_returns'] - self.risk_free_rate/252`): NaN and
`±inf` absorb the subtraction. -/
def pySubVal : PyVal → ℚ → PyVal
  | PyVal.none, _ => PyVal.none
  | PyVal.nan, _ => PyVal.nan
  | PyVal.inf, _ => PyVal.inf
  | PyVal.ninf, _ => PyVal.ninf
  | PyVal.num a, c => PyVal.num (a - c)

/-- The finite float carried by a `PyVal`, if any.  Used to model the
`skipna=True` default of pandas `mean`/`std`. -/
def numOf : PyVal → Option ℚ
  | PyVal.num a => some a
  | _ => Option.none

/-- The `{'$date': ...}` envelope in which the raw JSON wraps each
timestamp (unwrapped by `_preprocess_data` via `x['$date']`). -/
structure DollarDate where
  date : Timestamp
deriving DecidableEq

/-- One raw NAV record of `fund_data.json`: a wrapped timestamp and a
NAV value. -/
structure RawRecord where
  timestamp : DollarDate
  nav : ℚ
deriving DecidableEq

/-- One row of the preprocessed DataFrame `self.df`: columns
`timestamp`, `nav`, `daily_returns`. -/
structure Row where
  ts : Timestamp
  nav : ℚ
  dailyReturn : PyVal
deriving DecidableEq

/-- `pd.to_datetime(df['timestamp'].apply(lambda x: x['$date']))`. -/
def unwrapRecord (rec : RawRecord) : Timestamp × ℚ :=
  (rec.timestamp.date, rec.nav)

/-- Comparison used by `df.sort_values('timestamp')`. -/
def obsLE (a b : Timestamp × ℚ) : Prop :=
  a.1.days ≤ b.1.days

instance : DecidableRel obsLE :=
  fun a b => inferInstanceAs (Decidable (a.1.days ≤ b.1.days))

instance : IsTotal (Timestamp × ℚ) obsLE :=
  ⟨fun a b => Int.le_total a.1.days b.1.days⟩

instance : IsTrans (Timestamp × ℚ) obsLE :=
  ⟨fun _ _ _ h₁ h₂ => le_trans h₁ h₂⟩

/-- Row-level version of the timestamp ordering. -/
def rowLE (a b : Row) : Prop :=
  a.ts.days ≤ b.ts.days

instance : DecidableRel rowLE :=
  fun a b => inferInstanceAs (Decidable (a.ts.days ≤ b.ts.days))

/-- `df['nav'].pct_change()`: same length as the column, NaN in the
first position, `(cur - prev) / prev` afterwards (a float division, so a
zero previous value would give `±inf`/NaN — excluded by the NAV
positivity invariant). -/
def pctChange : List ℚ → List PyVal
  | [] => []
  | x :: rest =>
    PyVal.nan :: List.zipWith (fun prev cur => pyDivVal (cur - prev) prev) (x :: rest) rest

/-- Assemble one DataFrame row from a sorted (timestamp, nav) pair and
its `pct_change` entry. -/
def mkRow (p : Timestamp × ℚ) (v : PyVal) : Row :=
  { ts := p.1, nav := p.2, dailyReturn := v }

/-- `FundAnalyzer._preprocess_data`: unwrap the `$date` envelopes, sort
by timestamp ascending (`sort_values`, modelled by insertion sort — any
correct sort; no deduplication happens), then attach the
`daily_returns` column computed by `pct_change` over the sorted NAVs. -/
def preprocess (raw : List RawRecord) : List Row :=
  let sorted := List.insertionSort obsLE (raw.map unwrapRecord)
  List.zipWith mkRow sorted (pctChange (sorted.map Prod.snd))

/-- `self.df['timestamp'].max()`, as an integer day; `Option.none` for
an empty frame (pandas `NaT`). -/
def dfMaxDay : List Row → Option ℤ
  | [] => Option.none
  | r :: rest =>
    match dfMaxDay rest with
    | Option.none => some r.ts.days
    | some m => some (max r.ts.days m)

/-- The per-period slice taken by `get_historical_data`:
`self.df[self.df['timestamp'] >= end_date - pd.Timedelta(days=period*30)]`
with `end_date = self.df['timestamp'].max()`.  Note there is no upper
bound in the filter.  An empty frame has `NaT` as its max, and every
comparison against `NaT` is False, so the slice is empty. -/
def periodSlice (df : List Row) (p : ℕ) : List Row :=
  match dfMaxDay df with
  | Option.none => []
  | some endDay => df.filter fun r => decide (endDay - 30 * (p : ℤ) ≤ r.ts.days)

/-- `FundAnalyzer.get_historical_data`: one `{period}_month` entry per
requested period, each holding the `dates` and `values` columns of the
period's slice. -/
def get_historical_data (df : List Row) (periods : List ℕ) :
    List (String × List Timestamp × List ℚ) :=
  periods.map fun p =>
    (toString p ++ "_month", (periodSlice df p).map (fun r => r.ts),
      (periodSlice df p).map fun r => r.nav)

/-- The date filter `(timestamp >= start_date) & (timestamp <= end_date)`. -/
def inRange (s e : Timestamp) (r : Row) : Bool :=
  decide (s.days ≤ r.ts.days) && decide (r.ts.days ≤ e.days)

/-- `FundAnalyzer.calculate_absolute_returns`: filter the frame to the
inclusive date range, return `None` on fewer than two rows, otherwise
`(final - initial) / initial * 100` over the first and last row of the
slice. -/
def calculate_absolute_returns (df : List Row) (start_date end_date : Timestamp) : Option ℚ :=
  let period_data := df.filter (inRange start_date end_date)
  if period_data.length < 2 then Option.none
  else
    match period_data.head?, period_data.getLast? with
    | some first, some last => some ((last.nav - first.nav) / first.nav * 100)
    | _, _ => Option.none

/-- The `for i in range(len(period_data) - window_days + 1)` loop of
`calculate_rolling_returns`.  Each iteration takes the
`window_days`-row slice starting at `i`, reads its first and last
timestamps with `.iloc[0]` / `.iloc[-1]` (an `IndexError` on an empty
slice, which only a zero-day window could produce), and calls
`calculate_absolute_returns` on the whole frame `self.df` with those
endpoints, appending the return (and the slice's last date) when it is
not `None`. -/
def rollingLoop (df period_data : List Row) (window_days : ℕ) :
    List ℕ → Except PyErr (List (Timestamp × ℚ))
  | [] => Except.ok []
  | i :: rest =>
    let window_slice := (period_data.drop i).take window_days
    match window_slice.head?, window_slice.getLast? with
    | some first, some last =>
      (match calculate_absolute_returns df first.ts last.ts,
             rollingLoop df period_data window_days rest with
       | _, Except.error e => Except.error e
       | some ret, Except.ok tail => Except.ok ((last.ts, ret) :: tail)
       | Option.none, Except.ok tail => Except.ok tail)
    | _, _ => Except.error PyErr.indexError

/-- `FundAnalyzer.calculate_rolling_returns`: window of
`window_months * 30` days ending at `end_date` (default: the maximum
timestamp), returning the `pd.Series` of windowed returns.  The Python
`range` bound `len(period_data) - window_days + 1` is computed in `ℤ`
and truncated at zero, exactly as `range` treats non-positive bounds. -/
def calculate_rolling_returns (df : List Row) (window_months : ℕ) (end_date : Option Timestamp) :
    Except PyErr (List (Timestamp × ℚ)) :=
  let endDay? := match end_date with
    | some e => some e.days
    | Option.none => dfMaxDay df
  match endDay? with
  | Option.none => Except.ok []
  | some endDay =>
    let window_days := window_months * 30
    let start_day := endDay - (window_days : ℤ)
    let period_data := df.filter fun r =>
      decide (start_day ≤ r.ts.days) && decide (r.ts.days ≤ endDay)
    rollingLoop df period_data window_days
      (List.range ((period_data.length : ℤ) - (window_days : ℤ) + 1).toNat)

/-- `pd.Series(...).mean()`: NaN on an empty series (this is how the
`/analyze` route consumes the rolling returns), the arithmetic mean
otherwise. -/
def seriesMean (l : List ℚ) : PyVal :=
  if l.length = 0 then PyVal.nan else PyVal.num (l.sum / (l.length : ℚ))

/-- The `rolling_returns` entry of the metrics dictionary built by the
`/analyze` route: `analyzer.calculate_rolling_returns(window_months=...).mean()`. -/
def rolling_returns_metric (df : List Row) (window_months : ℕ) : Except PyErr PyVal :=
  match calculate_rolling_returns df window_months Option.none with
  | Except.error e => Except.error e
  | Except.ok series => Except.ok (seriesMean (series.map Prod.snd))

/-- Classification of the value returned by `calculate_sharpe_ratio`.
`unavailable` is Python `None`; a `finite` result carries the mean and
the (sample, `ddof=1`) variance of the defined excess returns — the
float the code returns is `sqrt 252 * mean / sqrt variance`, and the
positive factor `sqrt 252` and the square root cannot move a result
between the finite, infinite, NaN and `None` classes. -/
inductive SharpeResult where
  | unavailable
  | nan
  | posInf
  | negInf
  | finite (mean variance : ℚ)
deriving DecidableEq

/-- `FundAnalyzer.calculate_sharpe_ratio`: a `int(window_years*365)`-day
window ending at `end_date` (default: the maximum timestamp); `None`
when the slice has fewer than 252 rows; otherwise
`sqrt(252) * mean(excess) / std(excess)` where
`excess = daily_returns - risk_free_rate/252`.  pandas `mean`/`std`
skip NaN entries (`skipna=True`); `std` uses `ddof=1`, so it is NaN on
fewer than two defined entries, and an exactly zero variance makes the
division produce `±inf`/NaN exactly as numpy float division does. -/
def calculate_sharpe_ratio (df : List Row) (risk_free_rate : ℚ) (window_years : ℚ)
    (end_date : Option Timestamp) : SharpeResult :=
  let endDay? := match end_date with
    | some e => some e.days
    | Option.none => dfMaxDay df
  let period_data : List Row := match endDay? with
    | Option.none => []
    | some endDay =>
      let start_day := endDay - Rat.floor (window_years * 365)
      df.filter fun r => decide (start_day ≤ r.ts.days) && decide (r.ts.days ≤ endDay)
  if period_data.length < 252 then SharpeResult.unavailable
  else
    let excess_returns := period_data.map fun r => pySubVal r.dailyReturn (risk_free_rate / 252)
    match excess_returns.filterMap numOf with
    | [] => SharpeResult.nan
    | [_] => SharpeResult.nan
    | x :: y :: xs =>
      let ys := x :: y :: xs
      let n : ℚ := (ys.length : ℚ)
      let mean := ys.sum / n
      let variance := (ys.map fun v => (v - mean) ^ 2).sum / (n - 1)
      if variance = 0 then
        (if 0 < mean then SharpeResult.posInf
         else if mean < 0 then SharpeResult.negInf
         else SharpeResult.nan)
      else SharpeResult.finite mean variance

/-- Multiplication of a Python float by a pandas `Timestamp`, as
attempted by the Newton denominator `-cf*d` in `calculate_xirr`
(`d` ranges over the `dates` list of Timestamps there): Python raises
`TypeError`. -/
def floatTimesTimestamp (_q : ℚ) (_t : Timestamp) : Except PyErr ℚ :=
  Except.error PyErr.typeError

/-- One term `-cf*d/(1+rate)**(d+1)` of the Newton denominator in
`calculate_xirr`.  Evaluation stops at the very first operation
`-cf * d`, which already raises `TypeError` (as would the later
`d + 1`, an int added to a Timestamp), so the rest of the expression is
never reached in Python. -/
def derivTerm (cf : ℚ) (d : Timestamp) : Except PyErr ℚ :=
  floatTimesTimestamp (-cf) d

/-- Python `sum` over a list of computations each of which may raise:
the first exception propagates. -/
def exceptSum : List (Except PyErr ℚ) → Except PyErr ℚ
  | [] => Except.ok 0
  | t :: rest =>
    match t, exceptSum rest with
    | Except.error e, _ => Except.error e
    | Except.ok x, Except.ok s => Except.ok (x + s)
    | Except.ok _, Except.error e => Except.error e

/-- The inner `xnpv(rate)` of `calculate_xirr`:
`sum(cf/(1+rate)**((d-dates[0]).days/365.0) for cf, d in zip(cashflows, dates))`,
with the float power `(1+rate)**x` supplied as `fpow`. -/
def xnpv (fpow : ℚ → ℚ → ℚ) (cashflows : List ℚ) (dates : List Timestamp)
    (d0 : Timestamp) (rate : ℚ) : ℚ :=
  ((cashflows.zip dates).map fun p =>
    p.1 / fpow (1 + rate) (((p.2.days - d0.days : ℤ) : ℚ) / 365)).sum

/-- The `for _ in range(100)` Newton loop of `calculate_xirr`: compute
`xnpv(rate)`, then the denominator `sum(-cf*d/(1+rate)**(d+1) ...)`
(which raises `TypeError` on any non-empty schedule, because `d` is a
Timestamp), form the new rate, return `new_rate * 100` on convergence
(`|new_rate - rate| < 0.0001`), and return `None` when the fuel runs
out. -/
def newtonIter (fpow : ℚ → ℚ → ℚ) (cashflows : List ℚ) (dates : List Timestamp)
    (d0 : Timestamp) : ℕ → ℚ → Except PyErr (Option ℚ)
  | 0, _ => Except.ok Option.none
  | n + 1, rate =>
    let npv := xnpv fpow cashflows dates d0 rate
    match exceptSum ((cashflows.zip dates).map fun p => derivTerm p.1 p.2) with
    | Except.error e => Except.error e
    | Except.ok denom =>
      let new_rate := rate - npv / denom
      if ratAbs (new_rate - rate) < 1 / 10000 then Except.ok (some (new_rate * 100))
      else newtonIter fpow cashflows dates d0 n new_rate

/-- `FundAnalyzer.calculate_xirr`: slice the frame to the inclusive date
range; `None` on fewer than two rows; otherwise build the cash-flow
schedule (initial outflow `-nav_first` at the first date, the caller's
additional flows, final inflow `nav_last` at the last date) and run the
Newton loop from `rate = 0.1`. -/
def calculate_xirr (fpow : ℚ → ℚ → ℚ) (df : List Row) (start_date end_date : Timestamp)
    (additional_flows : Option (List (Timestamp × ℚ))) : Except PyErr (Option ℚ) :=
  let period_data := df.filter (inRange start_date end_date)
  if period_data.length < 2 then Except.ok Option.none
  else
    match period_data.head?, period_data.getLast? with
    | some first, some last =>
      let flows := additional_flows.getD []
      let cashflows := -first.nav :: (flows.map Prod.snd ++ [last.nav])
      let dates := first.ts :: (flows.map Prod.fst ++ [last.ts])
      newtonIter fpow cashflows dates first.ts 100 (1 / 10)
    | _, _ => Except.ok Option.none

/-- Modelled from the spec: the spec's XIRR algorithm (section 4.3) on
the claim's concrete schedule `[-100 @ day 0, 110 @ day 365]`.  For that
schedule `NPV(r) = -100 + 110/(1+r)^(365/365) = -100 + 110/(1+r)`, its
exact derivative is `-110/(1+r)^2`, the start rate is `0.10`, the
tolerance `1e-4` and the cap 100 iterations; `None` models the
"unavailable" result at the cap.  (What is missing from the source is a
working Newton denominator — the code's own denominator raises
`TypeError` — so the derivative is modelled from the spec's words:
"the derivative formula must use the same day-count convention as
NPV".) -/
def specNewtonTwoFlow : ℕ → ℚ → Option ℚ
  | 0, _ => Option.none
  | n + 1, rate =>
    let npv := -100 + 110 / (1 + rate)
    let deriv := -110 / (1 + rate) ^ 2
    let new_rate := rate - npv / deriv
    if ratAbs (new_rate - rate) < 1 / 10000 then some (new_rate * 100)
    else specNewtonTwoFlow n new_rate

/-- The metrics dictionary built by the `/analyze` route, in insertion
order.  Each entry is a calculator result: a float, `None`, or NaN. -/
structure Metrics where
  absolute_returns : PyVal
  rolling_returns : PyVal
  cagr : PyVal
  xirr : PyVal
  sharpe_ratio : PyVal
deriving DecidableEq

/-- The dictionary returned by `get_investment_recommendation`. -/
structure RecommendationResult where
  recommendation : String
  score : ℕ
  reasons : List String
  action_items : List String
deriving DecidableEq

/-- Python 3 `>` between metric values: comparing `None` with anything
raises `TypeError`; every comparison against NaN is False; `±inf`
compare as expected; finite floats compare as rationals. -/
def pyGT : PyVal → PyVal → Except PyErr Bool
  | PyVal.none, _ => Except.error PyErr.typeError
  | _, PyVal.none => Except.error PyErr.typeError
  | PyVal.nan, _ => Except.ok false
  | _, PyVal.nan => Except.ok false
  | PyVal.inf, PyVal.inf => Except.ok false
  | PyVal.inf, _ => Except.ok true
  | PyVal.ninf, _ => Except.ok false
  | PyVal.num _, PyVal.inf => Except.ok false
  | PyVal.num a, PyVal.num b => Except.ok (decide (b < a))
  | PyVal.num _, PyVal.ninf => Except.ok true

/-- The Sharpe-ratio block of `get_investment_recommendation`
(`if > 1.5 / elif > 1 / elif > 0.5 / else`), returning the points and
the reason string. -/
def sharpeAnalysis (v : PyVal) : Except PyErr (ℕ × String) :=
  match pyGT v (PyVal.num (3 / 2)) with
  | Except.error e => Except.error e
  | Except.ok true => Except.ok (3, "Excellent risk-adjusted returns")
  | Except.ok false =>
    match pyGT v (PyVal.num 1) with
    | Except.error e => Except.error e
    | Except.ok true => Except.ok (2, "Good risk-adjusted returns")
    | Except.ok false =>
      match pyGT v (PyVal.num (1 / 2)) with
      | Except.error e => Except.error e
      | Except.ok true => Except.ok (1, "Moderate risk-adjusted returns")
      | Except.ok false => Except.ok (0, "Poor risk-adjusted returns")

/-- The CAGR block of `get_investment_recommendation`
(`if > 15 / elif > 10 / elif > 7 / else`). -/
def cagrAnalysis (v : PyVal) : Except PyErr (ℕ × String) :=
  match pyGT v (PyVal.num 15) with
  | Except.error e => Except.error e
  | Except.ok true => Except.ok (3, "Strong consistent growth")
  | Except.ok false =>
    match pyGT v (PyVal.num 10) with
    | Except.error e => Except.error e
    | Except.ok true => Except.ok (2, "Good consistent growth")
    | Except.ok false =>
      match pyGT v (PyVal.num 7) with
      | Except.error e => Except.error e
      | Except.ok true => Except.ok (1, "Moderate growth")
      | Except.ok false => Except.ok (0, "Weak growth")

/-- The rolling-returns block of `get_investment_recommendation`
(`if > 12 / elif > 8 / else`). -/
def rollingAnalysis (v : PyVal) : Except PyErr (ℕ × String) :=
  match pyGT v (PyVal.num 12) with
  | Except.error e => Except.error e
  | Except.ok true => Except.ok (2, "Strong periodic performance")
  | Except.ok false =>
    match pyGT v (PyVal.num 8) with
    | Except.error e => Except.error e
    | Except.ok true => Except.ok (1, "Decent periodic performance")
    | Except.ok false => Except.ok (0, "Inconsistent performance")

/-- `FundAnalyzer.get_investment_recommendation`: score the four
metrics in source order (Sharpe, CAGR, rolling, XIRR-vs-CAGR timing),
collect the reason strings, then map the score to the recommendation
string and action items (`>= 7` buy, `>= 4` hold, else exit). -/
def get_investment_recommendation (metrics : Metrics) : Except PyErr RecommendationResult :=
  match sharpeAnalysis metrics.sharpe_ratio with
  | Except.error e => Except.error e
  | Except.ok (sPts, sReason) =>
    match cagrAnalysis metrics.cagr with
    | Except.error e => Except.error e
    | Except.ok (cPts, cReason) =>
      match rollingAnalysis metrics.rolling_returns with
      | Except.error e => Except.error e
      | Except.ok (rPts, rReason) =>
        match pyGT metrics.xirr metrics.cagr with
        | Except.error e => Except.error e
        | Except.ok timing =>
          let score := sPts + cPts + rPts + (if timing then 1 else 0)
          let reasons := [sReason, cReason, rReason] ++
            (if timing then [ "Beneficial investment timing"] else [])
          let pair :=
            if 7 ≤ score then
              ("BUY MORE UNITS",
               [ "Consider increasing allocation", "Look for dips to add units",
                 "Maintain SIP if applicable"])
            else if 4 ≤ score then
              ("CONTINUE HOLDING",
               [ "Monitor performance closely", "Maintain current investment",
                 "Review in 3 months"])
            else
              ("EXIT FUND",
               [ "Look for better alternatives", "Plan systematic withdrawal",
                 "Consider tax implications before exit"])
          Except.ok { recommendation := pair.1, score := score, reasons := reasons,
                      action_items := pair.2 }

/-- The spec's tabulated Sharpe points (`>1.5 / >1.0 / >0.5` gives
`3/2/1`, else 0). -/
def sharpePoints (s : ℚ) : ℕ :=
  if 3 / 2 < s then 3 else if 1 < s then 2 else if 1 / 2 < s then 1 else 0

/-- The spec's tabulated CAGR points (`>15 / >10 / >7` gives `3/2/1`,
else 0). -/
def cagrPoints (c : ℚ) : ℕ :=
  if 15 < c then 3 else if 10 < c then 2 else if 7 < c then 1 else 0

/-- The spec's tabulated rolling-return points (`>12 / >8` gives `2/1`,
else 0). -/
def rollingPoints (r : ℚ) : ℕ :=
  if 12 < r then 2 else if 8 < r then 1 else 0

/-- The spec's total score for a fully available metrics bundle. -/
def totalScore (s c r x : ℚ) : ℕ :=
  sharpePoints s + cagrPoints c + rollingPoints r + (if c < x then 1 else 0)

/-- The spec's score-to-recommendation thresholds. -/
def recLabel (score : ℕ) : String :=
  if 7 ≤ score then "BUY MORE UNITS"
  else if 4 ≤ score then "CONTINUE HOLDING"
  else "EXIT FUND"

/-- The reason string of the Sharpe block as a function of the value. -/
def sharpeReason (s : ℚ) : String :=
  if 3 / 2 < s then "Excellent risk-adjusted returns"
  else if 1 < s then "Good risk-adjusted returns"
  else if 1 / 2 < s then "Moderate risk-adjusted returns"
  else "Poor risk-adjusted returns"

/-- The reason string of the CAGR block as a function of the value. -/
def cagrReason (c : ℚ) : String :=
  if 15 < c then "Strong consistent growth"
  else if 10 < c then "Good consistent growth"
  else if 7 < c then "Moderate growth"
  else "Weak growth"

/-- The reason string of the rolling block as a function of the value. -/
def rollingReason (r : ℚ) : String :=
  if 12 < r then "Strong periodic performance"
  else if 8 < r then "Decent periodic performance"
  else "Inconsistent performance"

/-- The action items as a function of the score. -/
def actionItems (score : ℕ) : List String :=
  if 7 ≤ score then
    [ "Consider increasing allocation", "Look for dips to add units",
      "Maintain SIP if applicable"]
  else if 4 ≤ score then
    [ "Monitor performance closely", "Maintain current investment",
      "Review in 3 months"]
  else
    [ "Look for better alternatives", "Plan systematic withdrawal",
      "Consider tax implications before exit"]

/-- `l₁` is a final segment of `l₂`. -/
def isTailOf (l₁ l₂ : List α) : Prop :=
  ∃ t, t ++ l₁ = l₂

/-- Raw input for the XIRR claim: an observation of NAV 100 at day 0 and
one of NAV 110 at day 365, i.e. the schedule `[-100 @ day 0, 110 @ day 365]`. -/
def xirrRaw : List RawRecord :=
  [{ timestamp := { date := { days := 0 } }, nav := 100 },
   { timestamp := { date := { days := 365 } }, nav := 110 }]

/-- The preprocessed frame for the XIRR claim. -/
def xirrDf : List Row :=
  preprocess xirrRaw

/-- Five daily observations (days 0..4), fewer than the 31 a one-month
rolling window needs. -/
def fiveObsRaw : List RawRecord :=
  (List.range 5).map fun i =>
    { timestamp := { date := { days := (i : ℤ) } }, nav := 100 + (i : ℚ) }

/-- The preprocessed five-observation frame. -/
def fiveObsDf : List Row :=
  preprocess fiveObsRaw

/-- 252 daily observations with constant NAV 100: enough rows for the
Sharpe window, with a constant (zero) daily-return series. -/
def constNavRaw : List RawRecord :=
  (List.range 252).map fun i =>
    { timestamp := { date := { days := (i : ℤ) } }, nav := 100 }

/-- The preprocessed constant-NAV frame. -/
def constNavDf : List Row :=
  preprocess constNavRaw

/-- Two raw records sharing the timestamp day 5. -/
def dupRaw : List RawRecord :=
  [{ timestamp := { date := { days := 5 } }, nav := 10 },
   { timestamp := { date := { days := 5 } }, nav := 12 }]

/-! ## Theorems -/

theorem sharpeAnalysis_num (s : ℚ) :
    sharpeAnalysis (PyVal.num s) = Except.ok (sharpePoints s, sharpeReason s) := by
  simp only [sharpeAnalysis, pyGT, sharpePoints, sharpeReason, one_div]
  by_cases h1 : (3 : ℚ) / 2 < s
  · simp [h1]
  · by_cases h2 : (1 : ℚ) < s
    · simp [h1, h2]
    · by_cases h3 : (2 : ℚ)⁻¹ < s
      · simp [h1, h2, h3]
      · simp [h1, h2, h3]

theorem cagrAnalysis_num (c : ℚ) :
    cagrAnalysis (PyVal.num c) = Except.ok (cagrPoints c, cagrReason c) := by
  simp only [cagrAnalysis, pyGT, cagrPoints, cagrReason]
  by_cases h1 : (15 : ℚ) < c
  · simp [h1]
  · by_cases h2 : (10 : ℚ) < c
    · simp [h1, h2]
    · by_cases h3 : (7 : ℚ) < c
      · simp [h1, h2, h3]
      · simp [h1, h2, h3]

theorem rollingAnalysis_num (r : ℚ) :
    rollingAnalysis (PyVal.num r) = Except.ok (rollingPoints r, rollingReason r) := by
  simp only [rollingAnalysis, pyGT, rollingPoints, rollingReason]
  by_cases h1 : (12 : ℚ) < r
  · simp [h1]
  · by_cases h2 : (8 : ℚ) < r
    · simp [h1, h2]
    · simp [h1, h2]

/-- C7: for a fully available metrics bundle the score is the sum of the
tabulated points (Sharpe `>1.5/>1.0/>0.5` worth `3/2/1`, CAGR
`>15/>10/>7` worth `3/2/1`, rolling `>12/>8` worth `2/1`, plus 1 when
`xirr > cagr`), the recommendation is buy / hold / exit according to
`score >= 7` / `4 <= score < 7` / `score < 4`, and in particular
`{sharpe: 1.6, cagr: 16, rolling: 13, xirr: 20}` scores `9` (buy) and
`{sharpe: 0.3, cagr: 5, rolling: 3, xirr: 4 < cagr}` scores `0`
(exit). -/
theorem recommendation_scoring_table :
    (∀ (a : PyVal) (r c x s : ℚ),
      get_investment_recommendation
        { absolute_returns := a, rolling_returns := PyVal.num r, cagr := PyVal.num c,
          xirr := PyVal.num x, sharpe_ratio := PyVal.num s } =
      Except.ok
        { recommendation := recLabel (totalScore s c r x), score := totalScore s c r x,
          reasons := [sharpeReason s, cagrReason c, rollingReason r] ++
            (if c < x then [ "Beneficial investment timing"] else []),
          action_items := actionItems (totalScore s c r x) }) ∧
    get_investment_recommendation
      { absolute_returns := PyVal.num 0, rolling_returns := PyVal.num 13, cagr := PyVal.num 16,
        xirr := PyVal.num 20, sharpe_ratio := PyVal.num (8 / 5) } =
      Except.ok
        { recommendation := "BUY MORE UNITS", score := 9,
          reasons := [ "Excellent risk-adjusted returns", "Strong consistent growth",
            "Strong periodic performance", "Beneficial investment timing"],
          action_items := [ "Consider increasing allocation", "Look for dips to add units",
            "Maintain SIP if applicable"] } ∧
    get_investment_recommendation
      { absolute_returns := PyVal.num 0, rolling_returns := PyVal.num 3, cagr := PyVal.num 5,
        xirr := PyVal.num 4, sharpe_ratio := PyVal.num (3 / 10) } =
      Except.ok
        { recommendation := "EXIT FUND", score := 0,
          reasons := [ "Poor risk-adjusted returns", "Weak growth",
            "Inconsistent performance"],
          action_items := [ "Look for better alternatives", "Plan systematic withdrawal",
            "Consider tax implications before exit"] } := by
  refine ⟨?_, by decide, by decide⟩
  intro a r c x s
  simp only [get_investment_recommendation, sharpeAnalysis_num, cagrAnalysis_num,
    rollingAnalysis_num, pyGT, totalScore, recLabel, actionItems]
  by_cases hcx : c < x
  · simp [hcx]
    split_ifs <;> simp
  · simp [hcx]
    split_ifs <;> simp

theorem sharpeAnalysis_none : sharpeAnalysis PyVal.none = Except.error PyErr.typeError := rfl

theorem cagrAnalysis_none : cagrAnalysis PyVal.none = Except.error PyErr.typeError := rfl

theorem rollingAnalysis_none : rollingAnalysis PyVal.none = Except.error PyErr.typeError := rfl

theorem sharpeAnalysis_ok_of_ne_none (v : PyVal) (h : v ≠ PyVal.none) :
    ∃ a b, sharpeAnalysis v = Except.ok (a, b) := by
  cases v with
  | none => exact absurd rfl h
  | nan => exact ⟨0, _, rfl⟩
  | inf => exact ⟨3, _, rfl⟩
  | ninf => exact ⟨0, _, rfl⟩
  | num s => exact ⟨sharpePoints s, sharpeReason s, sharpeAnalysis_num s⟩

theorem cagrAnalysis_ok_of_ne_none (v : PyVal) (h : v ≠ PyVal.none) :
    ∃ a b, cagrAnalysis v = Except.ok (a, b) := by
  cases v with
  | none => exact absurd rfl h
  | nan => exact ⟨0, _, rfl⟩
  | inf => exact ⟨3, _, rfl⟩
  | ninf => exact ⟨0, _, rfl⟩
  | num c => exact ⟨cagrPoints c, cagrReason c, cagrAnalysis_num c⟩

theorem rollingAnalysis_ok_of_ne_none (v : PyVal) (h : v ≠ PyVal.none) :
    ∃ a b, rollingAnalysis v = Except.ok (a, b) := by
  cases v with
  | none => exact absurd rfl h
  | nan => exact ⟨0, _, rfl⟩
  | inf => exact ⟨2, _, rfl⟩
  | ninf => exact ⟨0, _, rfl⟩
  | num r => exact ⟨rollingPoints r, rollingReason r, rollingAnalysis_num r⟩

theorem pyGT_none_left (w : PyVal) : pyGT PyVal.none w = Except.error PyErr.typeError := by
  cases w <;> rfl

/-- C2: in the code as written, a metrics bundle in which any of
`sharpe_ratio`, `cagr`, `rolling_returns` or `xirr` is the unavailable
marker `None` makes `get_investment_recommendation` raise `TypeError`
(Python 3 refuses `None > number`), instead of producing a
`RecommendationResult` with an insufficient-data reason. -/
theorem unavailable_metric_crashes (m : Metrics)
    (h : m.sharpe_ratio = PyVal.none ∨ m.cagr = PyVal.none ∨
      m.rolling_returns = PyVal.none ∨ m.xirr = PyVal.none) :
    get_investment_recommendation m = Except.error PyErr.typeError := by
  unfold get_investment_recommendation
  by_cases hs : m.sharpe_ratio = PyVal.none
  · rw [hs, sharpeAnalysis_none]
  · obtain ⟨sa, sb, hps⟩ := sharpeAnalysis_ok_of_ne_none _ hs
    rw [hps]
    by_cases hc : m.cagr = PyVal.none
    · rw [hc, cagrAnalysis_none]
    · obtain ⟨ca, cb, hpc⟩ := cagrAnalysis_ok_of_ne_none _ hc
      rw [hpc]
      by_cases hr : m.rolling_returns = PyVal.none
      · rw [hr, rollingAnalysis_none]
      · obtain ⟨ra, rb, hpr⟩ := rollingAnalysis_ok_of_ne_none _ hr
        rw [hpr]
        have hx : m.xirr = PyVal.none := by tauto
        rw [hx, pyGT_none_left]

/-- Witness for `unavailable_metric_crashes`: the concrete bundle with
an unavailable Sharpe ratio and good values everywhere else. -/
theorem unavailable_metric_crashes_witness :
    get_investment_recommendation
      { absolute_returns := PyVal.num 0, rolling_returns := PyVal.num 13, cagr := PyVal.num 16,
        xirr := PyVal.num 20, sharpe_ratio := PyVal.none } = Except.error PyErr.typeError :=
  unavailable_metric_crashes _ (Or.inl rfl)

/-- C1: on the claim's own schedule (outflow 100 at day 0, inflow 110 at
day 365, so that the analytic root is exactly 10%), `calculate_xirr`
does not return ≈10: its very first Newton step raises `TypeError`,
because the denominator expression multiplies a float cash flow by a
pandas `Timestamp` (and adds an int to a `Timestamp`).  The result holds
for every interpretation `fpow` of the float power used by `xnpv`. -/
theorem calculate_xirr_typeError :
    ∀ fpow : ℚ → ℚ → ℚ,
      calculate_xirr fpow xirrDf { days := 0 } { days := 365 } Option.none =
        Except.error PyErr.typeError :=
  fun _ => rfl

/-- The claim's arithmetic itself is right: the spec's Newton-Raphson on
the schedule `[-100 @ day 0, 110 @ day 365]` (modelled from the spec in
`specNewtonTwoFlow`) converges — in one step, since `NPV(0.10) = 0`
exactly — and returns exactly 10 percent. -/
theorem specNewtonTwoFlow_converges_to_ten : specNewtonTwoFlow 100 (1 / 10) = some 10 := by
  decide

/-- C3: with five observations (days 0..4) and a one-month window
(30 days, so `windowDays + 1 = 31` observations are needed), the
rolling-return metric computed by the `/analyze` route is NaN — the mean
of an empty `pd.Series` — not the unavailable marker `None`. -/
theorem rolling_returns_empty_mean_nan :
    rolling_returns_metric fiveObsDf 1 = Except.ok PyVal.nan ∧
      PyVal.nan ≠ PyVal.none := by
  exact ⟨by decide, by decide⟩

/-- C4 (the part of the claim the code satisfies, on a concrete input):
with only five rows in the window, `calculate_sharpe_ratio` returns the
unavailable marker `None`. -/
theorem sharpe_few_rows_unavailable :
    calculate_sharpe_ratio fiveObsDf 4 1 Option.none = SharpeResult.unavailable := by
  decide

set_option maxRecDepth 100000 in
/-- C4: on 252 daily observations with constant NAV (so the daily-return
series is constantly 0 and its standard deviation is exactly 0), with
the documented fallback risk-free rate 4.0 and a one-year window,
`calculate_sharpe_ratio` divides by the zero standard deviation and
returns `-Infinity` (numpy float semantics: negative mean over zero
std), not the unavailable marker. -/
theorem sharpe_zero_std_negInf :
    calculate_sharpe_ratio constNavDf 4 1 Option.none = SharpeResult.negInf ∧
      SharpeResult.negInf ≠ SharpeResult.unavailable := by
  exact ⟨by decide, by decide⟩

/-- C9 counterexample: two input records share the timestamp day 5, and
`preprocess` keeps both — the constructed series has length 2, its
timestamps are `[5, 5]`, and adjacent timestamps are not strictly
increasing, refuting the claimed keep-last deduplication. -/
theorem preprocess_keeps_duplicate_timestamps :
    (preprocess dupRaw).length = 2 ∧
      ((preprocess dupRaw).map fun r => r.ts) = [{ days := 5 }, { days := 5 }] ∧
      ¬ List.Pairwise (fun a b : Row => a.ts.days < b.ts.days) (preprocess dupRaw) := by
  exact ⟨by decide, by decide, by decide⟩

theorem pctChange_length (l : List ℚ) : (pctChange l).length = l.length := by
  cases l with
  | nil => rfl
  | cons x rest => simp [pctChange]

theorem pctChange_get :
    ∀ (navs : List ℚ) (i : ℕ), 1 ≤ i → i < navs.length → (∀ v ∈ navs, 0 < v) →
      (pctChange navs)[i]? =
        some (PyVal.num (navs.getD i 0 / navs.getD (i - 1) 0 - 1)) := by
  intro navs
  induction navs with
  | nil => intro i _ h2 _; simp at h2
  | cons x rest ih =>
    intro i h1 h2 hpos
    cases rest with
    | nil => simp at h2; omega
    | cons y rest2 =>
      have hx : 0 < x := hpos x (by simp)
      cases i with
      | zero => omega
      | succ j =>
        cases j with
        | zero =>
          have hxne : x ≠ 0 := ne_of_gt hx
          simp [pctChange, pyDivVal, hxne, sub_div, div_self hxne]
        | succ k =>
          have htail := ih (k + 1) (by omega) (by simp at h2 ⊢; omega)
            (fun v hv => hpos v (by simp [hv]))
          have hstep : (pctChange (x :: y :: rest2))[k + 2]? =
              (pctChange (y :: rest2))[k + 1]? := by
            simp [pctChange]
          rw [hstep, htail]
          simp

/-- C5: the `daily_returns` column derived by `_preprocess_data` via
`pct_change` has no value at index 0 (pandas marks the absent entry
NaN), carries exactly `nav[i]/nav[i-1] - 1` at every index `i ≥ 1`, and
therefore holds exactly `len(observations) - 1` daily returns (the
column itself is row-aligned, i.e. one NaN followed by the
`len - 1` returns). -/
theorem daily_returns_spec :
    ∀ navs : List ℚ, navs ≠ [] → (∀ v ∈ navs, 0 < v) →
      (pctChange navs).length = navs.length ∧
      (pctChange navs).head? = some PyVal.nan ∧
      ((pctChange navs).drop 1).length = navs.length - 1 ∧
      (∀ i : ℕ, 1 ≤ i → i < navs.length →
        (pctChange navs)[i]? =
          some (PyVal.num (navs.getD i 0 / navs.getD (i - 1) 0 - 1))) := by
  intro navs hne hpos
  refine ⟨pctChange_length navs, ?_, ?_, fun i h1 h2 => pctChange_get navs i h1 h2 hpos⟩
  · cases navs with
    | nil => exact absurd rfl hne
    | cons x rest => rfl
  · simp [pctChange_length]

/-- Witness for `daily_returns_spec`: a three-observation series growing
10% a day has a daily-return column of length 3 whose entry at index 1
is `110/100 - 1 = 1/10`. -/
theorem daily_returns_spec_witness :
    (pctChange [100, 110, 121]).length = 3 ∧
      (pctChange [100, 110, 121])[1]? = some (PyVal.num (1 / 10)) := by
  have h := daily_returns_spec [100, 110, 121] (by decide) (by decide)
  refine ⟨h.1, ?_⟩
  have h2 := h.2.2.2 1 (by decide) (by decide)
  rw [h2]
  decide

/-- C6: `calculate_absolute_returns` returns the unavailable marker
`None` when the inclusive slice `[start, end]` holds fewer than two
observations; otherwise it returns
`(nav_end - nav_start) / nav_start * 100` over the first and last
observation of the slice; and observations outside `[start, end]`,
inserted anywhere into the frame, never affect the result. -/
theorem absolute_returns_spec :
    ∀ (df : List Row) (s e : Timestamp),
      ((df.filter (inRange s e)).length < 2 →
        calculate_absolute_returns df s e = Option.none) ∧
      (∀ f l : Row, ¬ (df.filter (inRange s e)).length < 2 →
        (df.filter (inRange s e)).head? = some f →
        (df.filter (inRange s e)).getLast? = some l →
        calculate_absolute_returns df s e = some ((l.nav - f.nav) / f.nav * 100)) ∧
      (∀ (l₁ l₂ : List Row) (o : Row), df = l₁ ++ l₂ →
        ¬ (s.days ≤ o.ts.days ∧ o.ts.days ≤ e.days) →
        calculate_absolute_returns (l₁ ++ o :: l₂) s e =
          calculate_absolute_returns df s e) := by
  intro df s e
  refine ⟨?_, ?_, ?_⟩
  · intro hlt
    simp [calculate_absolute_returns, hlt]
  · intro f l hlen hf hl
    simp [calculate_absolute_returns, hlen, hf, hl]
  · intro l₁ l₂ o hdf ho
    have hfo : inRange s e o = false := by
      simp [inRange]
      omega
    subst hdf
    simp [calculate_absolute_returns, List.filter_append, List.filter_cons, hfo]

/-- Concrete rows used by the witnesses below. -/
def rowA : Row :=
  { ts := { days := 0 }, nav := 100, dailyReturn := PyVal.nan }

/-- Second concrete row (day 10). -/
def rowB : Row :=
  { ts := { days := 10 }, nav := 110, dailyReturn := PyVal.num (1 / 10) }

/-- Third concrete row (day 20, outside the `[0, 10]` range used by the
witness). -/
def rowC : Row :=
  { ts := { days := 20 }, nav := 50, dailyReturn := PyVal.num 0 }

/-- Witness for `absolute_returns_spec`: over `[day 0, day 10]` the
two-row frame yields `(110-100)/100*100 = 10`; appending the day-20 row
does not change the result; and a range containing no rows yields
`None`. -/
theorem absolute_returns_spec_witness :
    calculate_absolute_returns [rowA, rowB] { days := 0 } { days := 10 } = some 10 ∧
      calculate_absolute_returns [rowA, rowB, rowC] { days := 0 } { days := 10 } =
        calculate_absolute_returns [rowA, rowB] { days := 0 } { days := 10 } ∧
      calculate_absolute_returns [rowA, rowB] { days := 50 } { days := 60 } = Option.none := by
  refine ⟨?_, ?_, ?_⟩
  · have h := (absolute_returns_spec [rowA, rowB] { days := 0 } { days := 10 }).2.1 rowA rowB
      (by decide) (by decide) (by decide)
    rw [h]
    decide
  · exact (absolute_returns_spec [rowA, rowB] { days := 0 } { days := 10 }).2.2
      [rowA, rowB] [] rowC (by simp) (by decide)
  · exact (absolute_returns_spec [rowA, rowB] { days := 50 } { days := 60 }).1 (by decide)

/-- C8: for a frame with a maximum timestamp (i.e. a non-empty NAV
series), the historical-data query for the fixed period list
`[1, 3, 6, 12, 36, 60]` returns exactly six entries keyed
`1_month` .. `60_month`, each entry's dates and values sequences have
equal length, and each period's slice is exactly the set of rows with
timestamp at least `max - 30 * p` days (a `p`-month window of
`p * 30` days ending at the latest observation, with no upper-bound
filtering). -/
theorem historical_data_spec :
    ∀ (df : List Row) (m : ℤ), dfMaxDay df = some m →
      (get_historical_data df [1, 3, 6, 12, 36, 60]).map Prod.fst =
        [ "1_month", "3_month", "6_month", "12_month", "36_month", "60_month"] ∧
      (get_historical_data df [1, 3, 6, 12, 36, 60]).length = 6 ∧
      (∀ entry ∈ get_historical_data df [1, 3, 6, 12, 36, 60],
        entry.2.1.length = entry.2.2.length) ∧
      (∀ p : ℕ, periodSlice df p =
        df.filter fun r => decide (m - 30 * (p : ℤ) ≤ r.ts.days)) := by
  intro df m hm
  refine ⟨?_, ?_, ?_, ?_⟩
  · simp [get_historical_data]
    exact ⟨by decide, by decide, by decide, by decide, by decide, by decide⟩
  · simp [get_historical_data]
  · intro entry hentry
    simp only [get_historical_data, List.mem_map] at hentry
    obtain ⟨p, _, rfl⟩ := hentry
    simp
  · intro p
    simp [periodSlice, hm]

/-- Witness for `historical_data_spec`: a one-row frame (maximum day 0)
has the six keys, and its one-month slice keeps the single row. -/
theorem historical_data_spec_witness :
    (get_historical_data [rowA] [1, 3, 6, 12, 36, 60]).map Prod.fst =
      [ "1_month", "3_month", "6_month", "12_month", "36_month", "60_month"] ∧
      periodSlice [rowA] 1 = [rowA] := by
  have h := historical_data_spec [rowA] 0 (by decide)
  refine ⟨h.1, ?_⟩
  rw [h.2.2.2 1]
  decide

theorem map_pair_zipWith_mkRow :
    ∀ (l₁ : List (Timestamp × ℚ)) (l₂ : List PyVal), l₂.length = l₁.length →
      ((List.zipWith mkRow l₁ l₂).map fun r => (r.ts, r.nav)) = l₁ := by
  intro l₁
  induction l₁ with
  | nil => intro l₂ _; simp
  | cons p rest ih =>
    intro l₂ h
    cases l₂ with
    | nil => simp at h
    | cons v vs =>
      simp only [List.zipWith_cons_cons, List.map_cons, mkRow]
      refine congrArg₂ _ rfl (ih vs ?_)
      simpa using h

/-- C9 (amended): `_preprocess_data` sorts the observations by timestamp
into non-decreasing order and keeps every input observation (the result
is a permutation of the unwrapped input); duplicate timestamps are all
retained, so adjacent timestamps need not be strictly increasing. -/
theorem preprocess_sorted_and_permutes :
    ∀ raw : List RawRecord,
      List.Pairwise rowLE (preprocess raw) ∧
        List.Perm ((preprocess raw).map fun r => (r.ts, r.nav)) (raw.map unwrapRecord) := by
  intro raw
  have hlen : (pctChange ((List.insertionSort obsLE (raw.map unwrapRecord)).map
      Prod.snd)).length = (List.insertionSort obsLE (raw.map unwrapRecord)).length := by
    rw [pctChange_length, List.length_map]
  have hmap := map_pair_zipWith_mkRow (List.insertionSort obsLE (raw.map unwrapRecord)) _ hlen
  have hsorted : List.Pairwise obsLE (List.insertionSort obsLE (raw.map unwrapRecord)) :=
    List.sorted_insertionSort obsLE (raw.map unwrapRecord)
  constructor
  · have h2 : List.Pairwise obsLE ((preprocess raw).map fun r => (r.ts, r.nav)) := by
      rw [preprocess, hmap]
      exact hsorted
    have h3 := List.pairwise_map.mp h2
    exact h3
  · rw [preprocess, hmap]
    exact List.perm_insertionSort obsLE (raw.map unwrapRecord)

theorem isTailOf_cons {α : Type} (a : α) (l₁ l₂ : List α) (h : isTailOf l₁ l₂) :
    isTailOf l₁ (a :: l₂) := by
  obtain ⟨t, ht⟩ := h
  exact ⟨a :: t, by simp [ht]⟩

theorem isTailOf_map {α β : Type} (f : α → β) (l₁ l₂ : List α) (h : isTailOf l₁ l₂) :
    isTailOf (l₁.map f) (l₂.map f) := by
  obtain ⟨t, ht⟩ := h
  exact ⟨t.map f, by rw [← List.map_append, ht]⟩

theorem filter_ge_eq_self (c : ℤ) (l : List Row) (h : ∀ r ∈ l, c ≤ r.ts.days) :
    (l.filter fun r => decide (c ≤ r.ts.days)) = l := by
  induction l with
  | nil => rfl
  | cons r rest ih =>
    simp only [List.filter_cons, h r (by simp), decide_true_eq_true, if_true]
    rw [ih fun x hx => h x (by simp [hx])]

theorem filter_ge_tail_mono :
    ∀ l : List Row, List.Pairwise rowLE l → ∀ c₁ c₂ : ℤ, c₁ ≤ c₂ →
      isTailOf (l.filter fun r => decide (c₂ ≤ r.ts.days))
        (l.filter fun r => decide (c₁ ≤ r.ts.days)) := by
  intro l
  induction l with
  | nil => intro _ c₁ c₂ _; exact ⟨[], rfl⟩
  | cons r rest ih =>
    intro hp c₁ c₂ hc
    obtain ⟨hr, hrest⟩ := List.pairwise_cons.mp hp
    by_cases h2 : c₂ ≤ r.ts.days
    · have h1 : c₁ ≤ r.ts.days := le_trans hc h2
      have hall2 : ∀ x ∈ rest, c₂ ≤ x.ts.days := fun x hx => le_trans h2 (hr x hx)
      have hall1 : ∀ x ∈ rest, c₁ ≤ x.ts.days := fun x hx => le_trans h1 (hr x hx)
      rw [List.filter_cons_of_pos (by simp [h2]), List.filter_cons_of_pos (by simp [h1]),
        filter_ge_eq_self c₂ rest hall2, filter_ge_eq_self c₁ rest hall1]
      exact ⟨[], rfl⟩
    · rw [List.filter_cons_of_neg (by simp [h2])]
      by_cases h1 : c₁ ≤ r.ts.days
      · rw [List.filter_cons_of_pos (by simp [h1])]
        exact isTailOf_cons r _ _ (ih hrest c₁ c₂ hc)
      · rw [List.filter_cons_of_neg (by simp [h1])]
        exact ih hrest c₁ c₂ hc

/-- C10: on a timestamp-sorted frame, for periods `p ≤ q` (in months)
the historical-data slice for `p` is a suffix of the slice for `q` —
and hence so are its dates and values columns; each slice is itself in
ascending timestamp order, and (when the frame has maximum day `m`)
consists exactly of the rows with timestamp at least `m - 30 * p` days,
with no upper-bound filtering. -/
theorem historical_windows_nested :
    ∀ (df : List Row) (p q : ℕ), List.Pairwise rowLE df → p ≤ q →
      isTailOf (periodSlice df p) (periodSlice df q) ∧
      isTailOf ((periodSlice df p).map fun r => r.ts)
        ((periodSlice df q).map fun r => r.ts) ∧
      isTailOf ((periodSlice df p).map fun r => r.nav)
        ((periodSlice df q).map fun r => r.nav) ∧
      List.Pairwise rowLE (periodSlice df p) ∧
      (∀ m : ℤ, dfMaxDay df = some m →
        periodSlice df p = df.filter fun r => decide (m - 30 * (p : ℤ) ≤ r.ts.days)) := by
  intro df p q hsorted hpq
  have hmain : isTailOf (periodSlice df p) (periodSlice df q) := by
    unfold periodSlice
    cases dfMaxDay df with
    | none => exact ⟨[], rfl⟩
    | some m =>
      apply filter_ge_tail_mono df hsorted
      have h30 : (30 : ℤ) * (p : ℤ) ≤ 30 * (q : ℤ) := by
        have : (p : ℤ) ≤ (q : ℤ) := by exact_mod_cast hpq
        omega
      omega
  refine ⟨hmain, isTailOf_map _ _ _ hmain, isTailOf_map _ _ _ hmain, ?_, ?_⟩
  · unfold periodSlice
    cases dfMaxDay df with
    | none => exact List.Pairwise.nil
    | some m => exact List.Pairwise.sublist (List.filter_sublist df) hsorted
  · intro m hm
    simp [periodSlice, hm]

/-- Witness for `historical_windows_nested`: on the two-row frame
(days 0 and 10, maximum day 10), the 1-month slice is a suffix of the
3-month slice, and equals the rows at least `10 - 30` days. -/
theorem historical_windows_nested_witness :
    isTailOf (periodSlice [rowA, rowB] 1) (periodSlice [rowA, rowB] 3) ∧
      periodSlice [rowA, rowB] 1 =
        [rowA, rowB].filter fun r => decide ((10 : ℤ) - 30 * (1 : ℤ) ≤ r.ts.days) := by
  have h := historical_windows_nested [rowA, rowB] 1 3 (by decide) (by decide)
  exact ⟨h.1, by simpa using h.2.2.2.2 10 (by decide)⟩
